import Mathlib

/-!
Verification of the `pypsa_academy` toolbox (`pypsa_academy.py`).

The file shallowly embeds the three utilities of the module:

* the sheet-to-CSV converter `convert_excel_to_csv` (with its helper
  `convert_sheet_to_csv`), modelled as a pure function over an explicit
  environment that records the directory listing, which OS operations
  fail, whether the workbook opens, and which sheet conversions fail;
* the solver prober `solver_selected` with its inner `find_solver` and
  `simple_network`, modelled over an environment `env : String → Bool`
  telling which solver names can solve the toy network;
* the interactive viewer `pypsa_viewer`, whose two button handlers
  (`on_confirm_clicked` for the static and varying first level,
  `on_new_confirm_clicked` for the second level) are modelled as pure
  state transformers on the shared `state` record.

Python-level exceptions are modelled with `Except PyError`; Python string
operations used by the code (`in` on `pandas` status strings via
`str.contains`, `str.endswith`, the replace-all semantics of
`str.replace`) are embedded as executable functions on `List Char`.
-/

set_option autoImplicit false

namespace PypsaAcademy

/-- Python exception values that the embedded code can produce.
`nameError v` covers both `NameError` and its subclass
`UnboundLocalError` for an unbound variable `v`. -/
inductive PyError where
  | osError (file : String)
  | valueError (msg : String)
  | nameError (v : String)
  | indexError
deriving DecidableEq, Repr

/-- Does the first list occur at the head of the second one?  Helper for
the substring test. -/
def hasPre : List Char → List Char → Bool
  | [], _ => true
  | _ :: _, [] => false
  | a :: as, b :: bs => a == b && hasPre as bs

/-- Does `pat` occur contiguously inside `s`? -/
def hasSub (pat : List Char) : List Char → Bool
  | [] => hasPre pat []
  | s@(_ :: rest) => hasPre pat s || hasSub pat rest

/-- Python `pat in s` on strings, and the `Series.str.contains(pat)` test
used on the `status` column of the attribute tables. -/
def strContains (s pat : String) : Bool :=
  hasSub pat.data s.data

/-- Python `s.endswith(suffix)`. -/
def strEndsWith (s suff : String) : Bool :=
  hasPre suff.data.reverse s.data.reverse

/-- Replace-all on character lists, scanning left to right with
non-overlapping matches, as Python `str.replace` does.  Structural
recursion on a fuel argument keeps the definition kernel-reducible; each
step consumes at least one character, so fuel `s.length` is enough.  An
empty pattern is never used by the embedded code; it is mapped to the
identity. -/
def replaceAll (pat rep : List Char) : Nat → List Char → List Char
  | _, [] => []
  | 0, s => s
  | fuel + 1, c :: rest =>
    match pat with
    | [] => c :: rest
    | _ :: ps =>
      if hasPre pat (c :: rest) then rep ++ replaceAll pat rep fuel (rest.drop ps.length)
      else c :: replaceAll pat rep fuel rest

/-- Python `s.replace(pat, rep)` (replaces every occurrence). -/
def pyReplace (s pat rep : String) : String :=
  ⟨replaceAll pat.data rep.data s.data.length s.data⟩

/-! ### The component schema

`n.component_attrs[key]` is a table with one row per attribute, carrying
at least the columns `status` (a string such as `Input (required)`,
`Input (optional)` or `Output`) and `varying` (a boolean); the row label
is the attribute name.  `n.components[key]['list_name']` is the plural
list name of the component (for example `generators` for `Generator`). -/

/-- One row of a `component_attrs` table: attribute name (the row index),
its `status` string and its `varying` flag. -/
structure AttrRow where
  name : String
  status : String
  varying : Bool
deriving DecidableEq, Repr

/-- One component of the schema: its type name (the key of
`n.components`), its `list_name`, and its attribute table. -/
structure SchemaComponent where
  compName : String
  list_name : String
  attrs : List AttrRow
deriving DecidableEq, Repr

/-- The row selection
`attrs[(attrs['status'].str.contains("Input")) & (attrs['varying'] == True)].index`:
names of the time-varying input attributes of a component. -/
def varyingInputNames (c : SchemaComponent) : List String :=
  (c.attrs.filter (fun a => strContains a.status "Input" && a.varying)).map AttrRow.name

/-- The sheet/file names one component contributes to the allow-list in
`convert_excel_to_csv`: the inner loop runs over
`list(varying input attribute names) or [None]`, so it produces
`list_name-attr` for every varying input attribute when there is at
least one, and the bare `list_name` only otherwise. -/
def componentSheetNames (c : SchemaComponent) : List String :=
  match varyingInputNames c with
  | [] => [c.list_name]
  | l => l.map (fun d => c.list_name ++ "-" ++ d)

/-- The allow-list (`components` set) computed by `convert_excel_to_csv`
from the schema of a fresh network.  Membership is what matters; the
Python value is a set. -/
def allowList (schema : List SchemaComponent) : List String :=
  (schema.map componentSheetNames).flatten

/-- Modelled from the words of the claim and of the spec (not from the
code): the allow-list said to contain, for EVERY component, the bare
`list_name` for its static attribute group AND `list_name-attr` for each
of its time-varying input attributes. -/
def claimedAllowList (schema : List SchemaComponent) : List String :=
  (schema.map
    (fun c => c.list_name :: (varyingInputNames c).map (fun d => c.list_name ++ "-" ++ d))).flatten

/-! ### The converter `convert_excel_to_csv`

The function is embedded over an explicit environment describing the
file system and workbook: the listing of the output directory, which
`os.remove` calls raise, whether `pd.ExcelFile` raises, the sheet names
of the workbook, and which `convert_sheet_to_csv` calls raise. -/

/-- The environment of one call of `convert_excel_to_csv`. -/
structure ConvEnv where
  /-- `os.listdir(csv_folder_path)`, in iteration order. -/
  dirFiles : List String
  /-- Whether `os.remove` raises an `OSError` on the given file. -/
  removeFails : String → Bool
  /-- `some sheetNames` when `pd.ExcelFile(excel_file_path)` succeeds and
  the workbook has these sheets, `none` when it raises. -/
  openedSheets : Option (List String)
  /-- Whether `convert_sheet_to_csv` raises on the given sheet. -/
  sheetFails : String → Bool

/-- The test of the deletion loop:
`item.endswith(".csv") and item.replace(".csv", "") in components`.
Note that `replace` removes every occurrence of `.csv`, not only the
final extension. -/
def deleteTest (comps : List String) (item : String) : Bool :=
  strEndsWith item ".csv" && comps.contains (pyReplace item ".csv" "")

/-- The deletion loop over `os.listdir(csv_folder_path)`.  Returns the
files still present afterwards and, when some `os.remove` raised, the
propagated error; the loop stops at the first raising removal, leaving
the remaining files untouched. -/
def deleteLoop (comps : List String) (env : ConvEnv) :
    List String → List String × Option PyError
  | [] => ([], none)
  | f :: rest =>
    if deleteTest comps f then
      if env.removeFails f then (f :: rest, some (PyError.osError f))
      else deleteLoop comps env rest
    else
      let (r, e) := deleteLoop comps env rest
      (f :: r, e)

/-- The value `convert_excel_to_csv` returns when it returns: the string
`csv_folder_path` on success, a list of file paths otherwise (the code
only ever returns the empty list). -/
inductive ConvResult where
  | pathStr (p : String)
  | fileList (l : List String)
deriving DecidableEq, Repr

instance {ε α : Type} [DecidableEq ε] [DecidableEq α] : DecidableEq (Except ε α) := fun
  | Except.ok a, Except.ok b =>
    if h : a = b then isTrue (by rw [h]) else isFalse (by intro hc; cases hc; exact h rfl)
  | Except.error a, Except.error b =>
    if h : a = b then isTrue (by rw [h]) else isFalse (by intro hc; cases hc; exact h rfl)
  | Except.ok _, Except.error _ => isFalse (by intro hc; cases hc)
  | Except.error _, Except.ok _ => isFalse (by intro hc; cases hc)

/-- The observable outcome of one call of `convert_excel_to_csv`:
the returned value or the propagated exception, the files of the output
directory that survived the deletion step, and the sheets actually
written as CSV files. -/
structure ConvOutcome where
  result : Except PyError ConvResult
  remaining : List String
  written : List String
deriving DecidableEq, Repr

/-- Shallow embedding of `convert_excel_to_csv`.

Control flow of the source: the allow-list is computed and the deletion
loop runs BEFORE the `try` block, so their exceptions propagate.  Inside
the `try`, the workbook is opened and each allow-listed sheet is
submitted to the pool; the first raising `future.result()` is caught and
the function returns `[]` (the pool still runs every submitted task, so
the non-raising sheets are written).  The `finally` block evaluates
`if xls is not None`: when opening itself raised, `xls` is unbound and a
`NameError` propagates, replacing the caught-path return. -/
def convert_excel_to_csv (schema : List SchemaComponent) (env : ConvEnv)
    (csv_folder_path : String) : ConvOutcome :=
  let comps := allowList schema
  let remaining := (deleteLoop comps env env.dirFiles).1
  match (deleteLoop comps env env.dirFiles).2 with
  | some e => ⟨Except.error e, remaining, []⟩
  | none =>
    match env.openedSheets with
    | none => ⟨Except.error (PyError.nameError "xls"), remaining, []⟩
    | some sheets =>
      let toConvert := sheets.filter (fun s => comps.contains s)
      let written := toConvert.filter (fun s => !env.sheetFails s)
      if toConvert.any env.sheetFails then
        ⟨Except.ok (ConvResult.fileList []), remaining, written⟩
      else
        ⟨Except.ok (ConvResult.pathStr csv_folder_path), remaining, written⟩

/-! ### A concrete schema fragment

A fragment of the schema of a fresh `pypsa.Network()`, used for concrete
evaluations: the `Generator` component has the time-varying input
attributes `p_max_pu`, `p_min_pu`, `p_set` (as the reference list in the
source comment records), the `Carrier` component has none. -/

/-- The `Generator` component of the default schema (fragment). -/
def generatorComponent : SchemaComponent :=
  { compName := "Generator", list_name := "generators",
    attrs := [⟨"name", "Input (required)", false⟩,
              ⟨"bus", "Input (required)", false⟩,
              ⟨"p_nom", "Input (optional)", false⟩,
              ⟨"marginal_cost", "Input (optional)", false⟩,
              ⟨"p_max_pu", "Input (optional)", true⟩,
              ⟨"p_min_pu", "Input (optional)", true⟩,
              ⟨"p_set", "Input (optional)", true⟩,
              ⟨"p", "Output", true⟩] }

/-- The `Carrier` component of the default schema (fragment): no
time-varying input attributes. -/
def carrierComponent : SchemaComponent :=
  { compName := "Carrier", list_name := "carriers",
    attrs := [⟨"name", "Input (required)", false⟩,
              ⟨"co2_emissions", "Input (optional)", false⟩] }

/-- Two-component schema fragment used for concrete counterexamples. -/
def demoSchema : List SchemaComponent := [generatorComponent, carrierComponent]

/-! ### The solver prober `solver_selected`

The environment `env : String → Bool` tells which solver names can solve
the fixed toy network (`simple_network` catches every exception itself
and returns `None` on failure). -/

/-- The fixed candidate list of `find_solver`, in preference order. -/
def solver_options : List String := ["gurobi", "cplex", "mosek", "highs", "glpk"]

/-- `simple_network(solver_name)`: builds the fixed toy network and
solves it; every exception is caught inside, returning `None`.  The
solved network object is abstracted to the solver name. -/
def simple_network (env : String → Bool) (solver_name : String) : Option String :=
  if env solver_name then some solver_name else none

/-- The `for solver in solver_options` loop of `find_solver`, run on an
explicit candidate list: returns the list of candidates attempted (in
order) and the first one whose `simple_network` result is not `None`. -/
def probeLoop (env : String → Bool) : List String → List String × Option String
  | [] => ([], none)
  | s :: rest =>
    if (simple_network env s).isSome then ([s], some s)
    else
      let (att, r) := probeLoop env rest
      (s :: att, r)

/-- The message of the `ValueError` raised when every candidate fails. -/
def noSolverMsg : String :=
  "No suitable solver found. Please install one of the solvers: "
    ++ String.intercalate ", " solver_options

/-- `find_solver()`: the loop over `solver_options`, returning the first
working solver, or raising a `ValueError` with `noSolverMsg` when none
works.  The first component is the list of attempted candidates. -/
def find_solver (env : String → Bool) : List String × Except PyError String :=
  match probeLoop env solver_options with
  | (att, some s) => (att, Except.ok s)
  | (att, none) => (att, Except.error (PyError.valueError noSolverMsg))

/-- `solver_selected()`: calls `find_solver` inside
`try ... except ValueError as e: print(e)` and then executes
`return solver`.  When `find_solver` raised, the `ValueError` is caught
and printed, but the local `solver` was never assigned, so the `return`
raises an `UnboundLocalError` (modelled as `nameError "solver"`). -/
def solver_selected (env : String → Bool) : Except PyError String :=
  match (find_solver env).2 with
  | Except.ok s => Except.ok s
  | Except.error (PyError.valueError _) => Except.error (PyError.nameError "solver")
  | Except.error e => Except.error e

/-- The human-readable message of an exception, as the Python runtime
would render it (quoting omitted). -/
def errMessage : PyError → String
  | PyError.osError f => "cannot remove file " ++ f
  | PyError.valueError m => m
  | PyError.nameError v => "local variable " ++ v ++ " referenced before assignment"
  | PyError.indexError => "list index out of range"

/-! ### The interactive viewer `pypsa_viewer`

The viewer displays widgets and installs two button handlers.  The
shared record is `state = {"return_file": None}`; the handlers are
embedded as pure transformers of `Option StoredData` (the value of
`state["return_file"]`), also returning what they display. -/

/-- A pandas time-series frame `network.{list_name}_t[attr]`: its row
index (snapshots) and its data columns.  `isEmpty` models
`DataFrame.empty`: true when either axis has length zero. -/
structure Series where
  snapshots : List String
  cols : List String
deriving DecidableEq, Repr

/-- Pandas `DataFrame.empty`. -/
def Series.isEmpty (s : Series) : Bool :=
  s.snapshots.isEmpty || s.cols.isEmpty

/-- What the viewer can store in `state["return_file"]`: a projection
`component_data[valid_attributes]` of a static table (recorded as the
list name of the table and the projected columns), or a time series. -/
inductive StoredData where
  | frame (list_name : String) (cols : List String)
  | series (s : Series)
deriving DecidableEq, Repr

/-- A live network as the viewer sees it: its schema
(`network.component_attrs` and `network.components`), the columns of
each static table `getattr(network, list_name)`, and the time series
`getattr(network, list_name + "_t")[attr]`. -/
structure Network where
  schema : List SchemaComponent
  staticCols : String → List String
  timeSeries : String → String → Series

/-- `network.component_attrs[val]`.  The handlers are only invoked with
`val` drawn from the dropdown of existing component names; an unknown
name is mapped to the empty table. -/
def attrsOf (n : Network) (val : String) : List AttrRow :=
  match n.schema.find? (fun c => c.compName == val) with
  | some c => c.attrs
  | none => []

/-- `network.components[val]["list_name"]`. -/
def listNameOf (n : Network) (val : String) : String :=
  match n.schema.find? (fun c => c.compName == val) with
  | some c => c.list_name
  | none => ""

/-- Line 199 of the source:
`attrs[(attrs['status'].str.contains(io_data)) & attrs['varying'] == True].index`.
By Python precedence `&` binds tighter than `==`, so the mask is
`(contains & varying) == True`, which is the plain conjunction. -/
def varying_attributes (n : Network) (val io_data : String) : List String :=
  ((attrsOf n val).filter
    (fun a => (strContains a.status io_data && a.varying) == true)).map AttrRow.name

/-- Line 200-202: all attributes whose status contains the direction
(no varying filter), with the first occurrence of the identifier
attribute `name` removed when present (`list.remove`). -/
def static_attributes (n : Network) (val io_data : String) : List String :=
  (((attrsOf n val).filter
    (fun a => strContains a.status io_data)).map AttrRow.name).erase "name"

/-- The second-level widgets built in the varying branch: the variables
dropdown (options and initial value `varying_attributes[0]`) and the
view radio (options `view_type`, initial value `Plot`). -/
structure VaryingWidgets where
  options : List String
  value : String
  viewOptions : List String
  viewValue : String
deriving DecidableEq, Repr

/-- What `on_confirm_clicked` renders. -/
inductive ConfirmOut where
  | widgets (w : VaryingWidgets)
  | shown (list_name : String) (cols : List String)
  | warning
deriving DecidableEq, Repr

/-- The first-level handler `on_confirm_clicked`, for the selected
component `val`, direction `io_data` and display kind `type_var`.

In the varying branch the code builds a dropdown with
`value=varying_attributes[0]`; on an empty list this raises an
`IndexError` that no handler catches.  In the static branch it filters
`static_attributes` against `network.generators.columns` (hardcoded
`generators`, whatever `val` is), then either stores and displays
`component_data[valid_attributes]` or prints the warning
`Warning: None of the static attributes are found in network.generators
columns`, leaving the state record untouched. -/
def on_confirm_clicked (n : Network) (val io_data type_var : String)
    (state : Option StoredData) : Except PyError (Option StoredData × ConfirmOut) :=
  let varying_attrs := varying_attributes n val io_data
  let static_attrs := static_attributes n val io_data
  if type_var == "varying" then
    match varying_attrs.get? 0 with
    | none => Except.error PyError.indexError
    | some v0 =>
      Except.ok (state, ConfirmOut.widgets ⟨varying_attrs, v0, ["Plot", "Table"], "Plot"⟩)
  else
    let valid_attributes := static_attrs.filter (fun a => (n.staticCols "generators").contains a)
    if valid_attributes.isEmpty then
      Except.ok (state, ConfirmOut.warning)
    else
      Except.ok (some (StoredData.frame (listNameOf n val) valid_attributes),
                 ConfirmOut.shown (listNameOf n val) valid_attributes)

/-- What `on_new_confirm_clicked` renders: the raw table, the message
`No data to plot`, or a figure with one line trace per data column and
its title. -/
inductive VaryOut where
  | table (s : Series)
  | noData
  | plot (traces : List String) (title : String)
  | nothing
deriving DecidableEq, Repr

/-- The second-level handler `on_new_confirm_clicked` for the selected
variable `varName` and render mode `mode` (the closure is only created
in the varying branch, so its `type_var == varying` test is always
true).  It fetches
`getattr(network, list_name + "_t")[varName]` and renders it. -/
def on_new_confirm_clicked (n : Network) (val varName mode : String)
    (state : Option StoredData) : Option StoredData × VaryOut :=
  let time_data := n.timeSeries (listNameOf n val) varName
  if mode == "Table" then
    (some (StoredData.series time_data), VaryOut.table time_data)
  else if mode == "Plot" then
    if time_data.isEmpty then (none, VaryOut.noData)
    else
      (some (StoredData.series time_data),
       VaryOut.plot time_data.cols (val ++ " " ++ varName ++ " Time Series"))
  else (state, VaryOut.nothing)

/-- The `Load` component of the demo network: one time-varying input
attribute `p_set`. -/
def loadComponent : SchemaComponent :=
  { compName := "Load", list_name := "loads",
    attrs := [⟨"name", "Input (required)", false⟩,
              ⟨"bus", "Input (required)", false⟩,
              ⟨"sign", "Input (optional)", false⟩,
              ⟨"p_set", "Input (optional)", true⟩,
              ⟨"p", "Output", true⟩] }

/-- A concrete live network for witnesses: schema fragment with
`Generator`, `Carrier` and `Load`; static tables with a few columns;
one non-empty time series, `loads_t["p_set"]`. -/
def demoNetwork : Network :=
  { schema := [generatorComponent, carrierComponent, loadComponent],
    staticCols := fun ln =>
      if ln == "generators" then ["bus", "p_nom", "marginal_cost"]
      else if ln == "loads" then ["bus", "sign"]
      else if ln == "carriers" then ["co2_emissions"]
      else [],
    timeSeries := fun ln attr =>
      if ln == "loads" && attr == "p_set" then ⟨["t0", "t1", "t2"], ["Load1"]⟩
      else ⟨[], []⟩ }

/-! ### Environments for concrete runs of the converter -/

/-- Environment for the claim C1 evaluation: empty output directory, no
OS failures, a workbook with a static `generators` sheet, a
`generators-p_max_pu` sheet and an unrelated sheet. -/
def envStaticSheet : ConvEnv :=
  { dirFiles := [],
    removeFails := fun _ => false,
    openedSheets := some ["generators", "generators-p_max_pu", "scenario"],
    sheetFails := fun _ => false }

/-- Environment where removing `carriers.csv` raises an `OSError`. -/
def envDeleteFail : ConvEnv :=
  { dirFiles := ["carriers.csv"],
    removeFails := fun f => f == "carriers.csv",
    openedSheets := some ["carriers"],
    sheetFails := fun _ => false }

/-- Environment where `pd.ExcelFile` raises (for example, the workbook
path does not exist). -/
def envOpenFail : ConvEnv :=
  { dirFiles := [],
    removeFails := fun _ => false,
    openedSheets := none,
    sheetFails := fun _ => false }

/-- Environment where the conversion of the `carriers` sheet raises. -/
def envSheetFail : ConvEnv :=
  { dirFiles := [],
    removeFails := fun _ => false,
    openedSheets := some ["carriers", "generators-p_set"],
    sheetFails := fun s => s == "carriers" }

/-- Environment with no failures at all. -/
def envAllOk : ConvEnv :=
  { dirFiles := ["carriers.csv", "notes.txt"],
    removeFails := fun _ => false,
    openedSheets := some ["carriers", "generators-p_set"],
    sheetFails := fun _ => false }

/-- Modelled from the words of the claim C8 (not from the code): a file
is to be deleted when it ends in `.csv` and its base name (the name
without the final `.csv` extension) is in the allow-list. -/
def claimDeleteTest (comps : List String) (item : String) : Bool :=
  strEndsWith item ".csv" && comps.contains (item.dropRight 4)

/-! ### Theorems about the converter -/

/-- Equation lemma: outcome of `convert_excel_to_csv` when a removal in
the deletion loop raises. -/
theorem convert_eq_of_delete_error (schema : List SchemaComponent) (env : ConvEnv)
    (p : String) (e : PyError)
    (hdel : (deleteLoop (allowList schema) env env.dirFiles).2 = some e) :
    convert_excel_to_csv schema env p =
      ⟨Except.error e, (deleteLoop (allowList schema) env env.dirFiles).1, []⟩ := by
  simp only [convert_excel_to_csv, hdel]

/-- Equation lemma: outcome of `convert_excel_to_csv` when deletion
succeeds but `pd.ExcelFile` raises. -/
theorem convert_eq_of_open_fail (schema : List SchemaComponent) (env : ConvEnv)
    (p : String)
    (hdel : (deleteLoop (allowList schema) env env.dirFiles).2 = none)
    (hop : env.openedSheets = none) :
    convert_excel_to_csv schema env p =
      ⟨Except.error (PyError.nameError "xls"),
       (deleteLoop (allowList schema) env env.dirFiles).1, []⟩ := by
  simp only [convert_excel_to_csv, hdel, hop]

/-- Equation lemma: outcome of `convert_excel_to_csv` when deletion
succeeds and the workbook opens. -/
theorem convert_eq_of_opened (schema : List SchemaComponent) (env : ConvEnv)
    (p : String) (sheets : List String)
    (hdel : (deleteLoop (allowList schema) env env.dirFiles).2 = none)
    (hop : env.openedSheets = some sheets) :
    convert_excel_to_csv schema env p =
      (if (sheets.filter (fun s => (allowList schema).contains s)).any env.sheetFails then
        ⟨Except.ok (ConvResult.fileList []),
         (deleteLoop (allowList schema) env env.dirFiles).1,
         (sheets.filter (fun s => (allowList schema).contains s)).filter
           (fun s => !env.sheetFails s)⟩
      else
        ⟨Except.ok (ConvResult.pathStr p),
         (deleteLoop (allowList schema) env env.dirFiles).1,
         (sheets.filter (fun s => (allowList schema).contains s)).filter
           (fun s => !env.sheetFails s)⟩) := by
  simp only [convert_excel_to_csv, hdel, hop]

/-- Claim C1 (code bug): the claim says the allow-list contains, for
every component type, the bare list name AND the hyphenated name for
each time-varying input attribute, and that a sheet is converted iff its
name is in that set.  The code computes, per component, EITHER the bare
list name (only when the component has no time-varying input attribute)
OR the hyphenated names, so the static sheet name `generators` is absent
from the allow-list and a `generators` sheet is never converted — while
the reference list in the source comment contains both `generators` and
`generators-p_max_pu`.  This theorem evaluates the code at the failing
input. -/
theorem allowlist_omits_static_sheet_names :
    "generators" ∉ allowList demoSchema ∧
    "generators" ∈ claimedAllowList demoSchema ∧
    "generators-p_max_pu" ∈ allowList demoSchema ∧
    (convert_excel_to_csv demoSchema envStaticSheet "csv_folder").written =
      ["generators-p_max_pu"] := by
  decide

/-- Claim C2, counterexample: an exception raised by `os.remove` during
the deletion of a matching CSV propagates out of `convert_excel_to_csv`
(the deletion loop runs before the `try` block), so the function does
not always catch exceptions of steps 2-4 and return an empty result. -/
theorem converter_deletion_error_propagates :
    (convert_excel_to_csv demoSchema envDeleteFail "csv_folder").result =
      Except.error (PyError.osError "carriers.csv") := by
  decide

/-- Claim C2, amended: only exceptions raised inside the `try` block are
handled.  A deletion failure propagates unchanged; when the workbook
fails to open, the caught exception is followed by a `NameError` on the
unbound `xls` in the `finally` block, which propagates; a sheet-write
failure is caught and yields the empty-list return; and the function
returns normally exactly when deletion succeeded and the workbook
opened. -/
theorem converter_exception_behavior (schema : List SchemaComponent) (env : ConvEnv)
    (p : String) :
    (∀ e, (deleteLoop (allowList schema) env env.dirFiles).2 = some e →
      (convert_excel_to_csv schema env p).result = Except.error e) ∧
    ((deleteLoop (allowList schema) env env.dirFiles).2 = none →
      env.openedSheets = none →
      (convert_excel_to_csv schema env p).result =
        Except.error (PyError.nameError "xls")) ∧
    (∀ sheets, (deleteLoop (allowList schema) env env.dirFiles).2 = none →
      env.openedSheets = some sheets →
      (sheets.filter (fun s => (allowList schema).contains s)).any env.sheetFails = true →
      (convert_excel_to_csv schema env p).result = Except.ok (ConvResult.fileList [])) ∧
    ((∃ v, (convert_excel_to_csv schema env p).result = Except.ok v) ↔
      (deleteLoop (allowList schema) env env.dirFiles).2 = none ∧
      env.openedSheets.isSome = true) := by
  refine ⟨?_, ?_, ?_, ?_⟩
  · intro e hdel
    rw [convert_eq_of_delete_error schema env p e hdel]
  · intro hdel hop
    rw [convert_eq_of_open_fail schema env p hdel hop]
  · intro sheets hdel hop hany
    rw [convert_eq_of_opened schema env p sheets hdel hop, if_pos hany]
  · constructor
    · rintro ⟨v, hv⟩
      cases hdel : (deleteLoop (allowList schema) env env.dirFiles).2 with
      | some e => rw [convert_eq_of_delete_error schema env p e hdel] at hv; cases hv
      | none =>
        cases hop : env.openedSheets with
        | none => rw [convert_eq_of_open_fail schema env p hdel hop] at hv; cases hv
        | some sheets => exact ⟨rfl, rfl⟩
    · rintro ⟨hdel, hop⟩
      cases hops : env.openedSheets with
      | none => rw [hops] at hop; cases hop
      | some sheets =>
        rw [convert_eq_of_opened schema env p sheets hdel hops]
        by_cases hany :
            (sheets.filter (fun s => (allowList schema).contains s)).any env.sheetFails = true
        · exact ⟨ConvResult.fileList [], by rw [if_pos hany]⟩
        · exact ⟨ConvResult.pathStr p, by rw [if_neg hany]⟩

/-- Helper: a boolean that is not true is false. -/
theorem bool_eq_false_of_ne_true {b : Bool} (h : ¬b = true) : b = false := by
  cases b
  · rfl
  · exact absurd rfl h

/-- Claim C2, witness: the amended theorem applied to a concrete
environment where converting the `carriers` sheet raises. -/
theorem converter_exception_behavior_witness :
    (convert_excel_to_csv demoSchema envSheetFail "out").result =
      Except.ok (ConvResult.fileList []) :=
  (converter_exception_behavior demoSchema envSheetFail "out").2.2.1
    ["carriers", "generators-p_set"] (by decide) (by decide) (by decide)

/-- Claim C7, counterexample: when the workbook fails to open,
`convert_excel_to_csv` raises (a `NameError` from the `finally` block)
instead of returning the empty list, so "on failure it returns an empty
result" does not hold of every failure. -/
theorem converter_open_failure_raises :
    (convert_excel_to_csv demoSchema envOpenFail "csv_folder").result =
      Except.error (PyError.nameError "xls") ∧
    (convert_excel_to_csv demoSchema envOpenFail "csv_folder").result ≠
      Except.ok (ConvResult.fileList []) := by
  decide

/-- Claim C7, amended: whenever `convert_excel_to_csv` returns, the
value is either the output directory path or the empty list — never a
partial list of created files — and it returns the path exactly on a
fully successful run; failures of deletion or of workbook opening raise
instead of returning. -/
theorem converter_return_values (schema : List SchemaComponent) (env : ConvEnv)
    (p : String) :
    (∀ v, (convert_excel_to_csv schema env p).result = Except.ok v →
      v = ConvResult.pathStr p ∨ v = ConvResult.fileList []) ∧
    ((convert_excel_to_csv schema env p).result = Except.ok (ConvResult.pathStr p) ↔
      (deleteLoop (allowList schema) env env.dirFiles).2 = none ∧
      ∃ sheets, env.openedSheets = some sheets ∧
        (sheets.filter (fun s => (allowList schema).contains s)).any env.sheetFails = false) := by
  cases hdel : (deleteLoop (allowList schema) env env.dirFiles).2 with
  | some e =>
    refine ⟨fun v hv => ?_, ?_⟩
    · rw [convert_eq_of_delete_error schema env p e hdel] at hv; cases hv
    · constructor
      · intro hv
        rw [convert_eq_of_delete_error schema env p e hdel] at hv; cases hv
      · rintro ⟨hnone, -⟩
        cases hnone
  | none =>
    cases hop : env.openedSheets with
    | none =>
      refine ⟨fun v hv => ?_, ?_⟩
      · rw [convert_eq_of_open_fail schema env p hdel hop] at hv; cases hv
      · constructor
        · intro hv
          rw [convert_eq_of_open_fail schema env p hdel hop] at hv; cases hv
        · rintro ⟨-, sheets, hs, -⟩
          cases hs
    | some sheets =>
      rw [convert_eq_of_opened schema env p sheets hdel hop]
      by_cases hany :
          (sheets.filter (fun s => (allowList schema).contains s)).any env.sheetFails = true
      · rw [if_pos hany]
        refine ⟨fun v hv => ?_, ?_⟩
        · cases hv; exact Or.inr rfl
        · constructor
          · intro hv; cases hv
          · rintro ⟨-, sheets', hs', hfail⟩
            cases hs'
            rw [hany] at hfail
            cases hfail
      · rw [if_neg hany]
        refine ⟨fun v hv => ?_, ?_⟩
        · cases hv; exact Or.inl rfl
        · constructor
          · intro _
            exact ⟨rfl, sheets, rfl, bool_eq_false_of_ne_true hany⟩
          · intro _; rfl

/-- Claim C7, witness: the amended theorem applied to a concrete
environment where a sheet conversion fails, so the returned value is the
empty list. -/
theorem converter_return_values_witness :
    ConvResult.fileList [] = ConvResult.pathStr "out" ∨
    ConvResult.fileList ([] : List String) = ConvResult.fileList [] :=
  (converter_return_values demoSchema envSheetFail "out").1
    (ConvResult.fileList []) (by decide)

/-- Claim C8, counterexample: the deletion test uses
`item.replace(".csv", "")`, which removes every occurrence of `.csv`,
not only the final extension.  The file `carriers.csv.csv` has base name
`carriers.csv`, which is not in the allow-list, so by the claim it
should be left untouched; the code deletes it. -/
theorem deletion_removes_nonmatching_base_name :
    deleteTest (allowList demoSchema) "carriers.csv.csv" = true ∧
    claimDeleteTest (allowList demoSchema) "carriers.csv.csv" = false ∧
    (deleteLoop (allowList demoSchema) envStaticSheet ["carriers.csv.csv"]).1 = [] := by
  decide

/-- Claim C8, amended: when no removal raises, the deletion step deletes
exactly those pre-existing files satisfying `deleteTest`, that is, those
that end in `.csv` and whose name with every occurrence of the substring
`.csv` removed is in the allow-list; every other pre-existing file
survives the deletion step unchanged. -/
theorem deletion_exact_set (comps : List String) (env : ConvEnv)
    (h : ∀ f, env.removeFails f = false) (files : List String) :
    deleteLoop comps env files = (files.filter (fun f => !deleteTest comps f), none) := by
  induction files with
  | nil => rfl
  | cons f rest ih =>
    by_cases hf : deleteTest comps f = true
    · simp [deleteLoop, List.filter_cons, hf, h, ih]
    · have hf' : deleteTest comps f = false := by
        cases hfc : deleteTest comps f
        · rfl
        · exact absurd hfc hf
      simp [deleteLoop, List.filter_cons, hf', ih]

/-- Claim C8, witness: the amended theorem applied to a concrete
directory listing: the matching `carriers.csv` is deleted, the
non-matching CSV and the text file survive. -/
theorem deletion_exact_set_witness :
    deleteLoop (allowList demoSchema) envAllOk ["carriers.csv", "buses.csv", "notes.txt"] =
      (["buses.csv", "notes.txt"], none) := by
  have h := deletion_exact_set (allowList demoSchema) envAllOk (fun _ => rfl)
    ["carriers.csv", "buses.csv", "notes.txt"]
  rw [h]
  decide

/-! ### Theorems about the solver prober -/

/-- Helper: `simple_network` succeeds exactly on the solvers the
environment accepts. -/
theorem simple_network_isSome (env : String → Bool) (s : String) :
    (simple_network env s).isSome = env s := by
  unfold simple_network
  cases h : env s <;> simp [h]

/-- Claim C3, counterexample: when every candidate fails, the public
`solver_selected` does raise, but the raised error is the
`UnboundLocalError` on `solver` (whose message names no candidate, not
even `gurobi`); the `ValueError` that names the candidates is raised by
the inner `find_solver` and is caught and printed by `solver_selected`. -/
theorem solver_selected_error_names_no_candidate :
    solver_selected (fun _ => false) = Except.error (PyError.nameError "solver") ∧
    strContains (errMessage (PyError.nameError "solver")) "gurobi" = false ∧
    (find_solver (fun _ => false)).2 = Except.error (PyError.valueError noSolverMsg) := by
  decide

/-- Claim C3, amended: if every candidate solver fails, the inner
`find_solver` raises a `ValueError` whose message names all attempted
candidates; the public `solver_selected` catches that error, prints its
message, and then raises an unbound-local error on `solver` (naming no
candidate) instead of returning a value. -/
theorem solver_selected_all_fail (env : String → Bool)
    (h : ∀ s ∈ solver_options, env s = false) :
    (find_solver env).2 = Except.error (PyError.valueError noSolverMsg) ∧
    (∀ c ∈ solver_options, strContains noSolverMsg c = true) ∧
    solver_selected env = Except.error (PyError.nameError "solver") := by
  have h1 : env "gurobi" = false := h _ (by simp [solver_options])
  have h2 : env "cplex" = false := h _ (by simp [solver_options])
  have h3 : env "mosek" = false := h _ (by simp [solver_options])
  have h4 : env "highs" = false := h _ (by simp [solver_options])
  have h5 : env "glpk" = false := h _ (by simp [solver_options])
  have hloop : probeLoop env solver_options = (solver_options, none) := by
    simp [solver_options, probeLoop, simple_network, h1, h2, h3, h4, h5]
  have hfind : (find_solver env).2 = Except.error (PyError.valueError noSolverMsg) := by
    simp [find_solver, hloop]
  refine ⟨hfind, by decide, ?_⟩
  simp [solver_selected, hfind]

/-- Claim C3, witness: the amended theorem applied to the environment
where no solver works. -/
theorem solver_selected_all_fail_witness :
    solver_selected (fun _ => false) = Except.error (PyError.nameError "solver") :=
  (solver_selected_all_fail (fun _ => false) (fun _ _ => rfl)).2.2

/-- Claim C4: the prober iterates the fixed candidate list
`gurobi, cplex, mosek, highs, glpk` strictly in order and returns the
first candidate whose solve succeeds, attempting no candidate after the
first success; in particular on a list `A, B, C` with `A` failing and
`B` succeeding it returns `B` having attempted exactly `A` then `B`. -/
theorem find_solver_first_success :
    solver_options = ["gurobi", "cplex", "mosek", "highs", "glpk"] ∧
    (∀ (env : String → Bool) (cands : List String),
      (probeLoop env cands).2 = cands.find? (fun s => env s)) ∧
    (∀ (env : String → Bool) (cands : List String),
      (probeLoop env cands).1 =
        match cands.find? (fun s => env s) with
        | none => cands
        | some s => cands.takeWhile (fun c => !env c) ++ [s]) ∧
    (∀ (env : String → Bool) (A B C : String), env A = false → env B = true →
      probeLoop env [A, B, C] = ([A, B], some B)) ∧
    (∀ (env : String → Bool) (s : String),
      (find_solver env).2 = Except.ok s ↔
        solver_options.find? (fun c => env c) = some s) := by
  have hres : ∀ (env : String → Bool) (cands : List String),
      (probeLoop env cands).2 = cands.find? (fun s => env s) := by
    intro env cands
    induction cands with
    | nil => rfl
    | cons s rest ih =>
      cases hs : env s with
      | true => simp [probeLoop, simple_network, List.find?, hs]
      | false => simp [probeLoop, simple_network, List.find?, hs, ih]
  refine ⟨rfl, hres, ?_, ?_, ?_⟩
  · intro env cands
    induction cands with
    | nil => rfl
    | cons s rest ih =>
      cases hs : env s with
      | true => simp [probeLoop, simple_network, List.find?, List.takeWhile, hs]
      | false =>
        simp only [probeLoop, simple_network_isSome, hs, if_false, List.find?,
          List.takeWhile, Bool.not_false, ih]
        cases rest.find? (fun s => env s) <;> simp
  · intro env A B C hA hB
    simp [probeLoop, simple_network, hA, hB]
  · intro env s
    unfold find_solver
    have := hres env solver_options
    rcases hp : probeLoop env solver_options with ⟨att, r⟩
    rw [hp] at this
    cases r with
    | some t => rw [← this]; constructor
                · intro hok; cases hok; rfl
                · intro hok; cases hok; rfl
    | none =>
      rw [← this]
      constructor
      · intro hok; cases hok
      · intro hok; cases hok

/-- Claim C4, witness: the first-success conjunct applied to the
concrete candidates `gurobi, cplex, mosek` with only `cplex` working:
it returns `cplex` after attempting exactly `gurobi` then `cplex`. -/
theorem find_solver_first_success_witness :
    probeLoop (fun s => s == "cplex") ["gurobi", "cplex", "mosek"] =
      (["gurobi", "cplex"], some "cplex") :=
  find_solver_first_success.2.2.2.1 (fun s => s == "cplex") "gurobi" "cplex" "mosek"
    (by decide) (by decide)

/-! ### Theorems about the viewer -/

/-- Claim C5: in the static path, for every selected component and
direction, the set of displayed attributes is exactly the set of
attribute names whose status matches the direction, minus the
identifier attribute `name`, intersected with the columns of the
GENERATOR table (the filter reads `network.generators.columns` whatever
component `val` is selected); when non-empty, the projection of the
selected component table onto these columns is displayed and stored,
otherwise the no-matching-attributes warning is shown.  The hypothesis
says the attribute names of the component are pairwise distinct (they
are the index of a pandas table). -/
theorem viewer_static_display (n : Network) (val io_data : String)
    (state : Option StoredData)
    (hnd : ((attrsOf n val).map AttrRow.name).Nodup) :
    (∀ a, (a ∈ (static_attributes n val io_data).filter
        (fun a => (n.staticCols "generators").contains a)) ↔
      (a ∈ ((attrsOf n val).filter
        (fun r => strContains r.status io_data)).map AttrRow.name ∧
       a ≠ "name" ∧ a ∈ n.staticCols "generators")) ∧
    (∀ valid, valid = (static_attributes n val io_data).filter
        (fun a => (n.staticCols "generators").contains a) →
      (valid ≠ [] →
        on_confirm_clicked n val io_data "static" state =
          Except.ok (some (StoredData.frame (listNameOf n val) valid),
                     ConfirmOut.shown (listNameOf n val) valid)) ∧
      (valid = [] →
        on_confirm_clicked n val io_data "static" state =
          Except.ok (state, ConfirmOut.warning))) := by
  have hnd' : (((attrsOf n val).filter
      (fun r => strContains r.status io_data)).map AttrRow.name).Nodup :=
    hnd.sublist ((List.filter_sublist _).map _)
  constructor
  · intro a
    simp only [static_attributes, List.mem_filter]
    rw [hnd'.mem_erase_iff]
    constructor
    · rintro ⟨⟨hne, hmem⟩, hcont⟩
      exact ⟨hmem, hne, by simpa using hcont⟩
    · rintro ⟨hmem, hne, hcols⟩
      exact ⟨⟨hne, hmem⟩, by simpa using hcols⟩
  · intro valid hval
    subst hval
    constructor
    · intro hne
      simp only [on_confirm_clicked]
      rw [if_neg (by decide : ¬(("static" == "varying") = true))]
      rw [if_neg (fun hemp => hne (by simpa using hemp))]
    · intro hemp
      simp only [on_confirm_clicked]
      rw [if_neg (by decide : ¬(("static" == "varying") = true))]
      rw [hemp]
      rfl

/-- Claim C5, witness: on the demo network, selecting component `Load`,
direction `Input`, kind `static` displays and stores the `loads` table
projected onto `bus` alone: `sign` is a `loads` column but not a
`generators` column, so the hardcoded generator filter drops it. -/
theorem viewer_static_display_witness :
    on_confirm_clicked demoNetwork "Load" "Input" "static" none =
      Except.ok (some (StoredData.frame "loads" ["bus"]),
                 ConfirmOut.shown "loads" ["bus"]) :=
  ((viewer_static_display demoNetwork "Load" "Input" none (by decide)).2
    ["bus"] (by decide)).1 (by decide)

/-- Claim C6: in the varying path after confirming a variable and a
render mode, table mode always displays and stores the fetched series,
empty or not; plot mode on an empty series prints the no-data message
and stores nothing; plot mode on a non-empty series draws one line
trace per data column under the title combining component type and
variable name, and stores the series. -/
theorem viewer_varying_render (n : Network) (val varName : String)
    (state : Option StoredData) :
    (on_new_confirm_clicked n val varName "Table" state =
      (some (StoredData.series (n.timeSeries (listNameOf n val) varName)),
       VaryOut.table (n.timeSeries (listNameOf n val) varName))) ∧
    ((n.timeSeries (listNameOf n val) varName).isEmpty = true →
      on_new_confirm_clicked n val varName "Plot" state = (none, VaryOut.noData)) ∧
    ((n.timeSeries (listNameOf n val) varName).isEmpty = false →
      on_new_confirm_clicked n val varName "Plot" state =
        (some (StoredData.series (n.timeSeries (listNameOf n val) varName)),
         VaryOut.plot (n.timeSeries (listNameOf n val) varName).cols
           (val ++ " " ++ varName ++ " Time Series"))) := by
  refine ⟨?_, ?_, ?_⟩
  · simp [on_new_confirm_clicked]
  · intro h
    simp [on_new_confirm_clicked, h]
  · intro h
    simp [on_new_confirm_clicked, h]

/-- Claim C6, witness: on the demo network, plotting the non-empty
series `loads_t` of `p_set` for component `Load` yields one trace for
the single column and the combined title, and stores the series. -/
theorem viewer_varying_render_witness :
    on_new_confirm_clicked demoNetwork "Load" "p_set" "Plot" none =
      (some (StoredData.series ⟨["t0", "t1", "t2"], ["Load1"]⟩),
       VaryOut.plot ["Load1"] "Load p_set Time Series") :=
  (viewer_varying_render demoNetwork "Load" "p_set" none).2.2 (by decide)

/-- Claim C9: in the warning branch of the static path, the shared
record `state` with its `return_file` field is left unchanged, so a
dataset stored by an earlier interaction of the same session is still
returned to the caller after the warning. -/
theorem viewer_warning_keeps_return_file (n : Network) (val io_data : String)
    (d : StoredData)
    (h : (static_attributes n val io_data).filter
      (fun a => (n.staticCols "generators").contains a) = []) :
    on_confirm_clicked n val io_data "static" (some d) =
      Except.ok (some d, ConfirmOut.warning) := by
  simp only [on_confirm_clicked]
  rw [if_neg (by decide : ¬(("static" == "varying") = true))]
  rw [h]
  rfl

/-- Claim C9, witness: the series stored by a previous varying-path
interaction survives a later static confirmation of `Carrier` with
direction `Input`, whose valid-attribute set is empty. -/
theorem viewer_warning_keeps_return_file_witness :
    on_confirm_clicked demoNetwork "Carrier" "Input" "static"
        (some (StoredData.series ⟨["t0", "t1", "t2"], ["Load1"]⟩)) =
      Except.ok (some (StoredData.series ⟨["t0", "t1", "t2"], ["Load1"]⟩),
                 ConfirmOut.warning) :=
  viewer_warning_keeps_return_file demoNetwork "Carrier" "Input"
    (StoredData.series ⟨["t0", "t1", "t2"], ["Load1"]⟩) (by decide)

/-- Claim C10: when the selected component and direction have no
time-varying attribute and display kind `varying` is confirmed, the
handler evaluates `varying_attributes[0]` on the empty list while
building the second-level dropdown, raising an `IndexError` that
nothing catches, instead of showing a warning. -/
theorem viewer_varying_empty_raises_index_error (n : Network) (val io_data : String)
    (state : Option StoredData)
    (h : varying_attributes n val io_data = []) :
    on_confirm_clicked n val io_data "varying" state = Except.error PyError.indexError := by
  simp only [on_confirm_clicked]
  rw [if_pos (by decide : ("varying" == "varying") = true)]
  rw [h]
  rfl

/-- Claim C10, witness: on the demo network, the `Carrier` component
has no time-varying input attribute, and confirming kind `varying` for
it raises the index error. -/
theorem viewer_varying_empty_raises_index_error_witness :
    on_confirm_clicked demoNetwork "Carrier" "Input" "varying" none =
      Except.error PyError.indexError :=
  viewer_varying_empty_raises_index_error demoNetwork "Carrier" "Input" none (by decide)

end PypsaAcademy
